import Mathlib

/-!
Shallow embedding of asyncapi_eventrouter (src/asyncapi_eventrouter/router.py).

Python values that flow through the router (payloads, handler results, schema
documents, the implicit None) are embedded as a JSON-like inductive type.
Python dicts are embedded as association lists with first-match lookup and
replace-in-place-or-append insertion, which matches dict semantics (unique
keys, insertion order preserved, last assignment wins).

Python exceptions are embedded with Except; a method that can both mutate
state and raise returns the pair of its Except result and the state as it is
after the partial mutations that precede the raise, matching the fact that
mutations performed before a Python raise persist. Calls to warnings.warn are
collected in a returned list of warning strings, in emission order.

The pydantic validation engine is the external collaborator of the spec: a
Model carries an uninterpreted validate function (embedding model(**data):
typed value on success, the engine error on failure) and an uninterpreted
schema document (embedding model.schema()).

Handler invocation is made observable by a call trace: the dispatch functions
return, next to their result, the list of (handler, validated-argument) pairs
with which handlers were invoked during the call, so that invoked-exactly-once
and never-invoked properties are statable.
-/

/-- JSON-like values: the embedding of the dynamically typed Python values the
router passes around. Json.null also stands for the Python None that a method
without an explicit return produces. -/
inductive Json where
  | null : Json
  | bool : Bool → Json
  | num : Int → Json
  | str : String → Json
  | arr : List Json → Json
  | obj : List (String × Json) → Json

/-- Lookup in an association-list dict: first matching key. -/
def dictGet {α : Type} (d : List (String × α)) (k : String) : Option α :=
  match d with
  | [] => none
  | (k', v) :: rest => if k' = k then some v else dictGet rest k

/-- Membership test, embedding the Python operator in. -/
def dictContains {α : Type} (d : List (String × α)) (k : String) : Bool :=
  (dictGet d k).isSome

/-- Assignment d[k] = v: replace the binding in place if the key is present,
append it otherwise. -/
def dictSet {α : Type} (d : List (String × α)) (k : String) (v : α) :
    List (String × α) :=
  match d with
  | [] => [(k, v)]
  | (k', v') :: rest =>
      if k' = k then (k, v) :: rest else (k', v') :: dictSet rest k v

/-- Keys of an association-list dict, in order. -/
def dictKeys {α : Type} (d : List (String × α)) : List String :=
  d.map Prod.fst

/-- Field access on a Json object, none on every other Json value. -/
def jget (j : Json) (k : String) : Option Json :=
  match j with
  | Json.obj fields => dictGet fields k
  | _ => none

/-- The pydantic model collaborator, per the spec a black box that validates a
raw payload into a typed value or an engine error (validate embeds the call
model(**data)) and emits a machine-readable schema document (schema embeds
model.schema()). Errors of the engine are carried as opaque strings. -/
structure Model where
  validate : Json → Except String Json
  schema : Json

/-- One declared parameter of a Python function, carrying the declared type
read by inspect.signature: param.annotation is the pydantic model of the
payload. -/
structure Param where
  annotation : Model

/-- A Python function as the router sees it: its declared parameter list
(what inspect.signature exposes) and its behaviour when called with the one
validated payload (the only call shape the router performs). -/
structure PyFunc where
  params : List Param
  call : Json → Json

/-- The bare Exception() raised by Subscription.__init__ when the handler does
not declare exactly one parameter. -/
inductive PyError where
  | sigError : PyError

/-- Trace of handler invocations performed during one dispatch: each entry is
the handler together with the validated payload it was invoked with. -/
abbrev CallTrace := List (PyFunc × Json)

/-- The pydantic Event envelope model: channel str, event str, data Any. -/
structure Event where
  channel : String
  event : String
  data : Json

/-- Embedding of Event.parse_raw. The JSON text layer is the out-of-scope
serialization collaborator, so the raw message is embedded as a structured
Json value; decoding fails unless the message is an object whose channel and
event fields are strings. A pydantic v1 field of type Any is optional with
default None, hence the default Json.null for a missing data field. -/
def Event.parse_raw (message : Json) : Except String Event :=
  match message with
  | Json.obj fields =>
      match dictGet fields "channel", dictGet fields "event" with
      | some (Json.str c), some (Json.str e) =>
          Except.ok { channel := c, event := e,
                      data := (dictGet fields "data").getD Json.null }
      | _, _ => Except.error "validation error: envelope fields missing or not strings"
  | _ => Except.error "validation error: message is not an object"

/-- A Subscription as stored: the handler and the model derived from its sole
parameter. The source also stores inspect.signature(func); it is only ever
used to read the parameter list, which PyFunc.params embeds. -/
structure Subscription where
  func : PyFunc
  model : Model

/-- Embedding of Subscription.__init__: raise Exception() when the parameter
list does not have length one, otherwise derive the model from
params[0].annotation. Matching on the singleton list is the same test as
len(func_params) != 1 followed by indexing params[0]. -/
def Subscription.make (func : PyFunc) : Except PyError Subscription :=
  match func.params with
  | [p] => Except.ok { func := func, model := Param.annotation p }
  | _ => Except.error PyError.sigError

/-- Embedding of Subscription.process: validated = self.model(**data), then
return self.func(validated). The trace records the one handler invocation on
success; on a validation error the engine error propagates unchanged and no
invocation is recorded. -/
def Subscription.process (s : Subscription) (data : Json) :
    Except String Json × CallTrace :=
  match s.model.validate data with
  | Except.error e => (Except.error e, [])
  | Except.ok v => (Except.ok (s.func.call v), [(s.func, v)])

/-- Embedding of Subscription.schema. -/
def Subscription.schema (s : Subscription) : Json :=
  Json.obj [("payload", s.model.schema)]

/-- A Publish descriptor: the declared payload model, nothing else. -/
structure Publish where
  model : Model

/-- Embedding of Publish.schema. -/
def Publish.schema (p : Publish) : Json :=
  Json.obj [("payload", p.model.schema)]

/-- A Channel: its two registries, publishers and subscribers. -/
structure Channel where
  publishers : List (String × Publish)
  subscribers : List (String × Subscription)

/-- Embedding of Channel.__init__: both registries empty. -/
def Channel.init : Channel :=
  { publishers := [], subscribers := [] }

/-- Embedding of Channel.register_subscription: warn when the event name is
already subscribed, then construct the Subscription (which may raise the
signature error, in which case the registry is left untouched but the warning
has already been emitted), then store it under the event name. -/
def Channel.register_subscription (c : Channel) (event_name : String)
    (func : PyFunc) : Except PyError Unit × Channel × List String :=
  let ws : List String :=
    if dictContains c.subscribers event_name then
      ["overwriting existing subscription for " ++ event_name]
    else []
  match Subscription.make func with
  | Except.error e => (Except.error e, c, ws)
  | Except.ok sub =>
      (Except.ok (),
       { c with subscribers := dictSet c.subscribers event_name sub }, ws)

/-- Embedding of Channel.register_publish: warn when the event name already
has a publish descriptor, then store the new descriptor under the name. -/
def Channel.register_publish (c : Channel) (event_name : String)
    (model : Model) : Except PyError Unit × Channel × List String :=
  let ws : List String :=
    if dictContains c.publishers event_name then
      ["overwriting existing publish for " ++ event_name]
    else []
  (Except.ok (),
   { c with publishers := dictSet c.publishers event_name { model := model } },
   ws)

/-- Embedding of Channel.process: delegate to the subscription when the event
name is subscribed, otherwise fall through and return the Python None. The
source performs no mutation in process, so the embedding is a pure read. -/
def Channel.process (c : Channel) (event_name : String) (data : Json) :
    Except String Json × CallTrace :=
  match dictGet c.subscribers event_name with
  | some sub => Subscription.process sub data
  | none => (Except.ok Json.null, [])

/-- Write out[key][field] = v on a defaultdict(dict): the inner dict is the
stored one when key is present (an absent or non-object value reads as the
fresh empty dict the defaultdict supplies). -/
def ddSet (out : List (String × Json)) (key field : String) (v : Json) :
    List (String × Json) :=
  let inner : List (String × Json) :=
    match dictGet out key with
    | some (Json.obj fs) => fs
    | _ => []
  dictSet out key (Json.obj (dictSet inner field v))

/-- Embedding of Channel.schema: a defaultdict(dict) filled by the loop over
subscribers (under the key publish) and the loop over publishers (under the
key subscribe), then returned as a plain dict. A top-level key exists only if
its loop ran at least once. -/
def Channel.schema (c : Channel) : Json :=
  let out : List (String × Json) := []
  let out := c.subscribers.foldl
    (fun o kv => ddSet o "publish" kv.1 (Subscription.schema kv.2)) out
  let out := c.publishers.foldl
    (fun o kv => ddSet o "subscribe" kv.1 (Publish.schema kv.2)) out
  Json.obj out

/-- A ChannelRouter: its registry of channels. -/
structure ChannelRouter where
  channels : List (String × Channel)

/-- Embedding of ChannelRouter.__init__. -/
def ChannelRouter.init : ChannelRouter :=
  { channels := [] }

/-- Embedding of ChannelRouter.register_subscription: create the channel when
the name is unseen, then delegate to the channel. The created-or-existing
channel object stays stored under the name even when the delegated call
raises, because the insertion precedes the raise in the source. -/
def ChannelRouter.register_subscription (r : ChannelRouter)
    (channel_name event_name : String) (func : PyFunc) :
    Except PyError Unit × ChannelRouter × List String :=
  let c := (dictGet r.channels channel_name).getD Channel.init
  let step := Channel.register_subscription c event_name func
  (step.1, { channels := dictSet r.channels channel_name step.2.1 }, step.2.2)

/-- Embedding of ChannelRouter.process: delegate to the channel when the name
is registered, otherwise fall through and return the Python None. Pure read,
as in the source. -/
def ChannelRouter.process (r : ChannelRouter)
    (channel_name event_name : String) (data : Json) :
    Except String Json × CallTrace :=
  match dictGet r.channels channel_name with
  | some c => Channel.process c event_name data
  | none => (Except.ok Json.null, [])

/-- Embedding of ChannelRouter.schema: channel name to channel schema. -/
def ChannelRouter.schema (r : ChannelRouter) : Json :=
  Json.obj (r.channels.map (fun kv => (kv.1, Channel.schema kv.2)))

/-- An Application: its one router. -/
structure Application where
  router : ChannelRouter

/-- Embedding of Application.__init__. -/
def Application.init : Application :=
  { router := ChannelRouter.init }

/-- Embedding of Application.register_subscription: delegate to the router. -/
def Application.register_subscription (a : Application)
    (channel name : String) (func : PyFunc) :
    Except PyError Unit × Application × List String :=
  let step := ChannelRouter.register_subscription a.router channel name func
  (step.1, { router := step.2.1 }, step.2.2)

/-- Embedding of Application.process: decode the message with Event.parse_raw
(a decode failure propagates and nothing is dispatched), then delegate to the
router with the envelope fields. -/
def Application.process (a : Application) (message : Json) :
    Except String Json × CallTrace :=
  match Event.parse_raw message with
  | Except.error e => (Except.error e, [])
  | Except.ok ev => ChannelRouter.process a.router ev.channel ev.event ev.data

/-- Embedding of Application.schema: the fixed version string first, then the
channels document of the router. -/
def Application.schema (a : Application) : Json :=
  Json.obj [("asyncapi", Json.str "2.2.0"),
            ("channels", ChannelRouter.schema a.router)]

/-- The names of the methods defined on class Subscription in the source. -/
def Subscription.methodNames : List String :=
  ["__init__", "process", "schema"]

/-- The names of the methods defined on class Channel in the source. -/
def Channel.methodNames : List String :=
  ["__init__", "register_subscription", "register_publish", "subscribe",
   "process", "schema"]

/-- The names of the methods defined on class ChannelRouter in the source. -/
def ChannelRouter.methodNames : List String :=
  ["__init__", "register_subscription", "subscribe", "process", "schema"]

/-- The names of the methods defined on class Application in the source. -/
def Application.methodNames : List String :=
  ["__init__", "register_subscription", "subscribe", "process", "schema"]

/-- Field access through an optional Json object, for chained lookups in
statements about the schema document. -/
def jget2 (o : Option Json) (k : String) : Option Json :=
  match o with
  | some j => jget j k
  | none => none

/-! Concrete fixtures used by witnesses and counterexamples. -/

/-- A concrete payload model: accepts any object payload unchanged and
rejects every other payload with a fixed engine error. -/
def mAny : Model :=
  { validate := fun j =>
      match j with
      | Json.obj fs => Except.ok (Json.obj fs)
      | _ => Except.error "payload is not an object"
    schema := Json.str "any-object-schema" }

/-- The parameter declaring mAny as its type. -/
def pAny : Param := { annotation := mAny }

/-- A handler with exactly one parameter that wraps its payload in an array. -/
def fEcho : PyFunc := { params := [pAny], call := fun j => Json.arr [j] }

/-- A handler declaring no parameter. -/
def fZero : PyFunc := { params := [], call := fun j => j }

/-- A handler declaring two parameters. -/
def fTwo : PyFunc := { params := [pAny, pAny], call := fun j => j }

/-- A second well-formed handler, returning a fixed string. -/
def fConst : PyFunc := { params := [pAny], call := fun _ => Json.str "second" }

/-- The subscription stored for fEcho. -/
def subEcho : Subscription := { func := fEcho, model := mAny }

/-- A channel holding one subscription for event message. -/
def cW1 : Channel := { publishers := [], subscribers := [("message", subEcho)] }

/-- A router holding cW1 under channel chat. -/
def rW1 : ChannelRouter := { channels := [("chat", cW1)] }

/-- An application over rW1. -/
def appW : Application := { router := rW1 }

/-- A second model with a distinct schema document. -/
def mTrack : Model :=
  { validate := fun j => Except.ok j, schema := Json.str "tracking-schema" }

/-- A channel with one subscription and one publish descriptor. -/
def cW6 : Channel :=
  { publishers := [("shipped", { model := mTrack })],
    subscribers := [("created", subEcho)] }

/-- An application exposing cW6 under channel orders. -/
def aW6 : Application := { router := { channels := [("orders", cW6)] } }

/-- A well-formed envelope message for the witness. -/
def msgGood : Json :=
  Json.obj [("channel", Json.str "chat"), ("event", Json.str "message"),
            ("data", Json.obj [])]

/-! Lemmas about association-list dicts. -/

theorem dictGet_dictSet_self {α : Type} (d : List (String × α)) (k : String)
    (v : α) : dictGet (dictSet d k v) k = some v := by
  induction d with
  | nil => simp [dictSet, dictGet]
  | cons hd tl ih =>
      obtain ⟨k', v'⟩ := hd
      by_cases h : k' = k
      · simp [dictSet, dictGet, h]
      · simp [dictSet, dictGet, h, ih]

theorem dictGet_append_absent {α : Type} {a b : List (String × α)} {k : String}
    (h : dictGet a k = none) : dictGet (a ++ b) k = dictGet b k := by
  induction a with
  | nil => simp
  | cons hd tl ih =>
      obtain ⟨k', v'⟩ := hd
      by_cases hk : k' = k
      · simp [dictGet, hk] at h
      · simp only [dictGet, hk, if_false, List.cons_append] at h ⊢
        exact ih h

theorem dictSet_absent {α : Type} {d : List (String × α)} {k : String}
    (v : α) (h : dictGet d k = none) : dictSet d k v = d ++ [(k, v)] := by
  induction d with
  | nil => simp [dictSet]
  | cons hd tl ih =>
      obtain ⟨k', v'⟩ := hd
      by_cases hk : k' = k
      · simp [dictGet, hk] at h
      · simp only [dictGet, hk, if_false] at h
        simp [dictSet, hk, ih h]

theorem dictSet_append_self {α : Type} {pre : List (String × α)} {k : String}
    (x y : α) (h : dictGet pre k = none) :
    dictSet (pre ++ [(k, x)]) k y = pre ++ [(k, y)] := by
  induction pre with
  | nil => simp [dictSet]
  | cons hd tl ih =>
      obtain ⟨k', v'⟩ := hd
      by_cases hk : k' = k
      · simp [dictGet, hk] at h
      · simp only [dictGet, hk, if_false] at h
        simp [dictSet, hk, ih h]

theorem dictGet_map {α β : Type} (F : α → β) (l : List (String × α))
    (k : String) :
    dictGet (l.map (fun kv => (kv.1, F kv.2))) k =
      Option.map F (dictGet l k) := by
  induction l with
  | nil => simp [dictGet]
  | cons hd tl ih =>
      obtain ⟨k', v'⟩ := hd
      by_cases hk : k' = k
      · simp [dictGet, hk]
      · simp [dictGet, hk, ih]

theorem foldl_ddSet_present {β : Type} (F : β → Json) (key : String)
    (l : List (String × β)) (pre : List (String × Json))
    (inner : List (String × Json)) (hpre : dictGet pre key = none) :
    l.foldl (fun o kv => ddSet o key kv.1 (F kv.2))
        (pre ++ [(key, Json.obj inner)]) =
      pre ++ [(key, Json.obj
        (l.foldl (fun a kv => dictSet a kv.1 (F kv.2)) inner))] := by
  induction l generalizing inner with
  | nil => simp
  | cons hd tl ih =>
      have h1 : dictGet (pre ++ [(key, Json.obj inner)]) key
          = some (Json.obj inner) := by
        rw [dictGet_append_absent hpre]
        simp [dictGet]
      have h2 : ddSet (pre ++ [(key, Json.obj inner)]) key hd.1 (F hd.2)
          = pre ++ [(key, Json.obj (dictSet inner hd.1 (F hd.2)))] := by
        simp only [ddSet, h1]
        exact dictSet_append_self _ _ hpre
      rw [List.foldl_cons, h2, ih]
      rfl

theorem foldl_ddSet_absent {β : Type} (F : β → Json) (key : String)
    (l : List (String × β)) (pre : List (String × Json))
    (hpre : dictGet pre key = none) :
    l.foldl (fun o kv => ddSet o key kv.1 (F kv.2)) pre =
      if l.isEmpty then pre
      else pre ++ [(key, Json.obj
        (l.foldl (fun a kv => dictSet a kv.1 (F kv.2)) []))] := by
  cases l with
  | nil => simp
  | cons hd tl =>
      have h0 : ddSet pre key hd.1 (F hd.2)
          = pre ++ [(key, Json.obj [(hd.1, F hd.2)])] := by
        simp only [ddSet, hpre, dictSet]
        exact dictSet_absent _ hpre
      rw [List.foldl_cons, h0, foldl_ddSet_present F key tl pre _ hpre]
      simp [dictSet]

theorem foldl_dictSet_eq_map {β : Type} (F : β → Json) (l : List (String × β))
    (acc : List (String × Json)) (hnd : (dictKeys l).Nodup)
    (hdisj : ∀ k, k ∈ dictKeys l → dictGet acc k = none) :
    l.foldl (fun a kv => dictSet a kv.1 (F kv.2)) acc =
      acc ++ l.map (fun kv => (kv.1, F kv.2)) := by
  induction l generalizing acc with
  | nil => simp
  | cons hd tl ih =>
      have hacc : dictGet acc hd.1 = none := hdisj hd.1 (by simp [dictKeys])
      have hcons : hd.1 ∉ dictKeys tl ∧ (dictKeys tl).Nodup := by
        simpa [dictKeys, List.nodup_cons] using hnd
      have hdisj' : ∀ k, k ∈ dictKeys tl →
          dictGet (acc ++ [(hd.1, F hd.2)]) k = none := by
        intro k hk
        have hne : hd.1 ≠ k := fun he => hcons.1 (he ▸ hk)
        have hmem : k ∈ dictKeys (hd :: tl) := by
          simp [dictKeys] at hk ⊢
          exact Or.inr hk
        rw [dictGet_append_absent (hdisj k hmem)]
        simp [dictGet, hne]
      rw [List.foldl_cons, dictSet_absent _ hacc, ih _ hcons.2 hdisj']
      simp

theorem dictGet_foldl_dictSet {β : Type} (F : β → Json)
    (l : List (String × β)) (k : String) (hnd : (dictKeys l).Nodup) :
    dictGet (l.foldl (fun a kv => dictSet a kv.1 (F kv.2)) []) k =
      Option.map F (dictGet l k) := by
  rw [foldl_dictSet_eq_map F l [] hnd (fun k hk => rfl)]
  simpa using dictGet_map F l k

theorem Channel.schema_eq (c : Channel) :
    Channel.schema c = Json.obj (
      (if c.subscribers.isEmpty then [] else
        [("publish", Json.obj (c.subscribers.foldl
          (fun a kv => dictSet a kv.1 (Subscription.schema kv.2)) []))]) ++
      (if c.publishers.isEmpty then [] else
        [("subscribe", Json.obj (c.publishers.foldl
          (fun a kv => dictSet a kv.1 (Publish.schema kv.2)) []))])) := by
  simp only [Channel.schema]
  rw [foldl_ddSet_absent Subscription.schema "publish" c.subscribers [] rfl]
  by_cases h1 : c.subscribers.isEmpty
  · rw [if_pos h1, if_pos h1]
    rw [foldl_ddSet_absent Publish.schema "subscribe" c.publishers [] rfl]
    by_cases h2 : c.publishers.isEmpty
    · rw [if_pos h2, if_pos h2]
      simp
    · rw [if_neg h2, if_neg h2]
  · rw [if_neg h1, if_neg h1]
    simp only [List.nil_append]
    rw [foldl_ddSet_absent Publish.schema "subscribe" c.publishers _
      (by simp [dictGet])]
    by_cases h2 : c.publishers.isEmpty
    · rw [if_pos h2, if_pos h2]
      simp
    · rw [if_neg h2, if_neg h2]

/-! Facts about Subscription.make, shared by several theorems. -/

theorem Subscription.make_error {f : PyFunc} (hf : f.params.length ≠ 1) :
    Subscription.make f = Except.error PyError.sigError := by
  rcases hp : f.params with _ | ⟨p, rest⟩
  · simp [Subscription.make, hp]
  · rcases rest with _ | ⟨q, rest2⟩
    · exact absurd (by rw [hp]; rfl) hf
    · simp [Subscription.make, hp]

theorem Subscription.make_ok {f : PyFunc} {p : Param} (hp : f.params = [p]) :
    Subscription.make f =
      Except.ok { func := f, model := Param.annotation p } := by
  simp [Subscription.make, hp]

/-! The claims. -/

/-- C1: dispatching a registered (channel, event) pair with a raw payload the
payload model validates invokes the registered handler exactly once with the
validated, typed payload (the call trace is exactly one entry, the stored
handler applied to the validated value) and returns the handler return value
to the caller of dispatch. -/
theorem C1_dispatch_valid_payload (r : ChannelRouter) (cn en : String)
    (c : Channel) (sub : Subscription) (data v : Json)
    (hc : dictGet r.channels cn = some c)
    (hs : dictGet c.subscribers en = some sub)
    (hv : sub.model.validate data = Except.ok v) :
    ChannelRouter.process r cn en data =
      (Except.ok (sub.func.call v), [(sub.func, v)]) := by
  simp [ChannelRouter.process, hc, Channel.process, hs,
    Subscription.process, hv]

/-- Witness for C1 on a concrete router. -/
theorem C1_witness :
    ChannelRouter.process rW1 "chat" "message" (Json.obj []) =
      (Except.ok (Json.arr [Json.obj []]), [(fEcho, Json.obj [])]) :=
  C1_dispatch_valid_payload rW1 "chat" "message" cW1 subEcho (Json.obj [])
    (Json.obj []) rfl rfl rfl

/-- C2: dispatching a registered (channel, event) pair with a raw payload the
payload model rejects propagates the engine error unchanged and the handler
is not invoked (empty call trace). -/
theorem C2_dispatch_invalid_payload (r : ChannelRouter) (cn en : String)
    (c : Channel) (sub : Subscription) (data : Json) (e : String)
    (hc : dictGet r.channels cn = some c)
    (hs : dictGet c.subscribers en = some sub)
    (hv : sub.model.validate data = Except.error e) :
    ChannelRouter.process r cn en data = (Except.error e, []) := by
  simp [ChannelRouter.process, hc, Channel.process, hs,
    Subscription.process, hv]

/-- Witness for C2 on a concrete router. -/
theorem C2_witness :
    ChannelRouter.process rW1 "chat" "message" Json.null =
      (Except.error "payload is not an object", []) :=
  C2_dispatch_invalid_payload rW1 "chat" "message" cW1 subEcho Json.null
    "payload is not an object" rfl rfl rfl

/-- C3: dispatch for an unregistered channel, or for a registered channel
with an unregistered event, raises nothing, invokes no handler, and returns
the Python None. The source performs no mutation in any process method, so
the embedding is a pure function of the router: the registries are unchanged
and every repetition of the call returns this same result. -/
theorem C3_dispatch_unroutable (r : ChannelRouter) (cn en : String)
    (data : Json)
    (h : dictGet r.channels cn = none ∨
      ∃ c, dictGet r.channels cn = some c ∧ dictGet c.subscribers en = none) :
    ChannelRouter.process r cn en data = (Except.ok Json.null, []) := by
  rcases h with h | ⟨c, hc, hs⟩
  · simp [ChannelRouter.process, h]
  · simp [ChannelRouter.process, hc, Channel.process, hs]

/-- Witness for C3: an unknown channel and an unknown event of a known
channel, on a concrete router. -/
theorem C3_witness :
    ChannelRouter.process rW1 "nope" "message" Json.null =
        (Except.ok Json.null, []) ∧
    ChannelRouter.process rW1 "chat" "unknown" Json.null =
        (Except.ok Json.null, []) :=
  ⟨C3_dispatch_unroutable rW1 "nope" "message" Json.null (Or.inl rfl),
   C3_dispatch_unroutable rW1 "chat" "unknown" Json.null
     (Or.inr ⟨cW1, rfl, rfl⟩)⟩

/-- C4: registering a handler that does not declare exactly one parameter
raises the signature error at registration time and leaves the channel
untouched (in particular no Subscription is stored for the event name);
registering a handler with exactly one parameter succeeds and stores a
Subscription whose model is that parameter declared type. -/
theorem C4_registration_signature (c : Channel) (en : String) (f : PyFunc) :
    (f.params.length ≠ 1 →
      (Channel.register_subscription c en f).1 =
          Except.error PyError.sigError ∧
      (Channel.register_subscription c en f).2.1 = c) ∧
    (∀ p, f.params = [p] →
      (Channel.register_subscription c en f).1 = Except.ok () ∧
      dictGet (Channel.register_subscription c en f).2.1.subscribers en =
        some { func := f, model := Param.annotation p }) := by
  constructor
  · intro hf
    simp [Channel.register_subscription, Subscription.make_error hf]
  · intro p hp
    simp [Channel.register_subscription, Subscription.make_ok hp,
      dictGet_dictSet_self]

/-- Witness for C4: a zero-parameter handler is rejected without storing
anything; a one-parameter handler is stored with its declared model. -/
theorem C4_witness :
    ((Channel.register_subscription Channel.init "evt" fZero).1 =
        Except.error PyError.sigError ∧
      (Channel.register_subscription Channel.init "evt" fZero).2.1 =
        Channel.init) ∧
    ((Channel.register_subscription Channel.init "evt" fEcho).1 =
        Except.ok () ∧
      dictGet (Channel.register_subscription Channel.init "evt"
          fEcho).2.1.subscribers "evt" =
        some { func := fEcho, model := mAny }) :=
  ⟨(C4_registration_signature Channel.init "evt" fZero).1 (by decide),
   (C4_registration_signature Channel.init "evt" fEcho).2 pAny rfl⟩

/-- C5: registering the same (channel, event) pair twice leaves exactly one
stored Subscription, the one of the second registration (the subscription
registry of the channel is literally the singleton holding the second
handler), the second registration emits the overwrite warning, and a later
dispatch of the pair invokes only the second handler: the call trace holds
the second handler alone. Stated from any router state in which the channel
name is still unseen. -/
theorem C5_double_registration_second_wins (r : ChannelRouter)
    (cn en : String) (f1 f2 : PyFunc) (m1 m2 : Model)
    (h1 : f1.params = [{ annotation := m1 }])
    (h2 : f2.params = [{ annotation := m2 }])
    (hc : dictGet r.channels cn = none) :
    ∀ res1 res2,
      res1 = ChannelRouter.register_subscription r cn en f1 →
      res2 = ChannelRouter.register_subscription res1.2.1 cn en f2 →
      res1.2.2 = [] ∧
      res2.2.2 = ["overwriting existing subscription for " ++ en] ∧
      dictGet res2.2.1.channels cn = some
        { publishers := [],
          subscribers := [(en, { func := f2, model := m2 })] } ∧
      (∀ data v, m2.validate data = Except.ok v →
        ChannelRouter.process res2.2.1 cn en data =
          (Except.ok (f2.call v), [(f2, v)])) := by
  intro res1 res2 e1 e2
  have hres1 : res1 =
      (Except.ok (),
       { channels := dictSet r.channels cn
           { publishers := [],
             subscribers := [(en, { func := f1, model := m1 })] } },
       []) := by
    rw [e1]
    simp [ChannelRouter.register_subscription, hc,
      Channel.register_subscription, Channel.init, dictContains, dictGet,
      Subscription.make_ok h1, dictSet]
  have hres2 : res2 =
      (Except.ok (),
       { channels := dictSet (dictSet r.channels cn
           { publishers := [],
             subscribers := [(en, { func := f1, model := m1 })] }) cn
           { publishers := [],
             subscribers := [(en, { func := f2, model := m2 })] } },
       ["overwriting existing subscription for " ++ en]) := by
    rw [e2, hres1]
    simp [ChannelRouter.register_subscription, dictGet_dictSet_self,
      Channel.register_subscription, dictContains, dictGet,
      Subscription.make_ok h2, dictSet]
  refine ⟨by rw [hres1], by rw [hres2], by rw [hres2]; simp [dictGet_dictSet_self], ?_⟩
  intro data v hv
  rw [hres2]
  simp [ChannelRouter.process, dictGet_dictSet_self, Channel.process,
    dictGet, Subscription.process, hv]

/-- Witness for C5: register fEcho then fConst for (chat, message) on a fresh
router; the second registration warns, only fConst is stored, and dispatch
invokes fConst alone. -/
theorem C5_witness :
    (ChannelRouter.register_subscription
        (ChannelRouter.register_subscription ChannelRouter.init
          "chat" "message" fEcho).2.1
        "chat" "message" fConst).2.2 =
      ["overwriting existing subscription for message"] ∧
    dictGet (ChannelRouter.register_subscription
        (ChannelRouter.register_subscription ChannelRouter.init
          "chat" "message" fEcho).2.1
        "chat" "message" fConst).2.1.channels "chat" = some
      { publishers := [],
        subscribers := [("message", { func := fConst, model := mAny })] } ∧
    ChannelRouter.process (ChannelRouter.register_subscription
        (ChannelRouter.register_subscription ChannelRouter.init
          "chat" "message" fEcho).2.1
        "chat" "message" fConst).2.1 "chat" "message" (Json.obj []) =
      (Except.ok (Json.str "second"), [(fConst, Json.obj [])]) := by
  have h := C5_double_registration_second_wins ChannelRouter.init
    "chat" "message" fEcho fConst mAny mAny rfl rfl rfl _ _ rfl rfl
  exact ⟨h.2.1, h.2.2.1, h.2.2.2 (Json.obj []) (Json.obj []) rfl⟩

/-- C8: processMessage first decodes the raw message; a message that does not
decode to the envelope shape makes the call return that decode error with no
dispatch (empty call trace), and a message that decodes delegates to the
router dispatch with the envelope fields, returning that call result. -/
theorem C8_process_message (a : Application) (msg : Json) :
    (∀ e, Event.parse_raw msg = Except.error e →
      Application.process a msg = (Except.error e, [])) ∧
    (∀ ev, Event.parse_raw msg = Except.ok ev →
      Application.process a msg =
        ChannelRouter.process a.router ev.channel ev.event ev.data) := by
  constructor
  · intro e he
    simp [Application.process, he]
  · intro ev he
    simp [Application.process, he]

/-- Witness for C8: a non-object message surfaces the decode error with no
dispatch; a well-formed envelope is dispatched with its fields. -/
theorem C8_witness :
    Application.process appW (Json.str "junk") =
      (Except.error "validation error: message is not an object", []) ∧
    Application.process appW msgGood =
      ChannelRouter.process rW1 "chat" "message" (Json.obj []) :=
  ⟨(C8_process_message appW (Json.str "junk")).1
      "validation error: message is not an object" rfl,
   (C8_process_message appW msgGood).2
      { channel := "chat", event := "message", data := Json.obj [] } rfl⟩

/-- C9: a failed registration still creates the channel: calling the router
registration with an unseen channel name and a handler that does not declare
exactly one parameter raises the signature error, yet a fresh Channel with
empty registries remains stored under the channel name. -/
theorem C9_failed_registration_creates_channel (r : ChannelRouter)
    (cn en : String) (f : PyFunc)
    (hc : dictGet r.channels cn = none) (hf : f.params.length ≠ 1) :
    (ChannelRouter.register_subscription r cn en f).1 =
      Except.error PyError.sigError ∧
    dictGet (ChannelRouter.register_subscription r cn en f).2.1.channels cn =
      some Channel.init := by
  simp [ChannelRouter.register_subscription, hc,
    Channel.register_subscription, Subscription.make_error hf,
    dictGet_dictSet_self]

/-- Witness for C9 on a fresh router and the zero-parameter handler. -/
theorem C9_witness :
    (ChannelRouter.register_subscription ChannelRouter.init "c" "e" fZero).1 =
      Except.error PyError.sigError ∧
    dictGet (ChannelRouter.register_subscription ChannelRouter.init "c" "e"
        fZero).2.1.channels "c" = some Channel.init :=
  C9_failed_registration_creates_channel ChannelRouter.init "c" "e" fZero
    rfl (by decide)

/-- C10: when the event name already has a stored subscription and the new
handler is rejected by the signature check, the overwrite warning is emitted
before the raise (it is in the emission list even though the call errors) and
the channel is left exactly as it was, so the previously stored subscription
remains the binding for the event name. -/
theorem C10_warning_precedes_signature_error (c : Channel) (en : String)
    (old : Subscription) (f : PyFunc)
    (hs : dictGet c.subscribers en = some old)
    (hf : f.params.length ≠ 1) :
    (Channel.register_subscription c en f).2.2 =
      ["overwriting existing subscription for " ++ en] ∧
    (Channel.register_subscription c en f).1 =
      Except.error PyError.sigError ∧
    (Channel.register_subscription c en f).2.1 = c ∧
    dictGet (Channel.register_subscription c en f).2.1.subscribers en =
      some old := by
  simp [Channel.register_subscription, Subscription.make_error hf,
    dictContains, hs]

/-- Witness for C10 on the concrete channel cW1 and the two-parameter
handler. -/
theorem C10_witness :
    (Channel.register_subscription cW1 "message" fTwo).2.2 =
      ["overwriting existing subscription for message"] ∧
    (Channel.register_subscription cW1 "message" fTwo).1 =
      Except.error PyError.sigError ∧
    (Channel.register_subscription cW1 "message" fTwo).2.1 = cW1 ∧
    dictGet (Channel.register_subscription cW1 "message"
        fTwo).2.1.subscribers "message" = some subEcho :=
  C10_warning_precedes_signature_error cW1 "message" subEcho fTwo rfl
    (by decide)

theorem dictGet_some_isEmpty {α : Type} {l : List (String × α)} {k : String}
    {v : α} (h : dictGet l k = some v) : l.isEmpty = false := by
  cases l with
  | nil => simp [dictGet] at h
  | cons hd tl => rfl

/-- C6, amended: the schema export has the top-level keys asyncapi (the fixed
version string) and channels; the channels document maps each channel name to
the channel schema; inside a channel schema the publish key maps each
subscribed event name to its payload wrapper and the subscribe key maps each
publish-descriptor event name to its payload wrapper (the naming inversion
relative to the internal registries). The two-key shape, however, does not
hold for every channel: the defaultdict in the source materialises a key only
when its loop runs, so the publish key is absent when the channel has no
subscription and the subscribe key is absent when it has no publish
descriptor. -/
theorem C6_schema_export (a : Application) (cn : String) (c : Channel)
    (hc : dictGet a.router.channels cn = some c) :
    jget (Application.schema a) "asyncapi" = some (Json.str "2.2.0") ∧
    jget (Application.schema a) "channels" =
      some (ChannelRouter.schema a.router) ∧
    jget (ChannelRouter.schema a.router) cn = some (Channel.schema c) ∧
    (c.subscribers.isEmpty = true →
      jget (Channel.schema c) "publish" = none) ∧
    (c.publishers.isEmpty = true →
      jget (Channel.schema c) "subscribe" = none) ∧
    (∀ en sub, (dictKeys c.subscribers).Nodup →
      dictGet c.subscribers en = some sub →
      jget2 (jget (Channel.schema c) "publish") en =
        some (Json.obj [("payload", sub.model.schema)])) ∧
    (∀ en pub, (dictKeys c.publishers).Nodup →
      dictGet c.publishers en = some pub →
      jget2 (jget (Channel.schema c) "subscribe") en =
        some (Json.obj [("payload", pub.model.schema)])) := by
  refine ⟨?_, ?_, ?_, ?_, ?_, ?_, ?_⟩
  · simp [Application.schema, jget, dictGet]
  · simp [Application.schema, jget, dictGet]
  · simp only [ChannelRouter.schema, jget]
    rw [dictGet_map Channel.schema a.router.channels cn, hc]
    rfl
  · intro hse
    rw [Channel.schema_eq]
    by_cases hpe : c.publishers.isEmpty
    · simp [hse, hpe, jget, dictGet]
    · simp [hse, hpe, jget, dictGet]
  · intro hpe
    rw [Channel.schema_eq]
    by_cases hse : c.subscribers.isEmpty
    · simp [hse, hpe, jget, dictGet]
    · simp [hse, hpe, jget, dictGet]
  · intro en sub hnd hget
    have hse := dictGet_some_isEmpty hget
    rw [Channel.schema_eq]
    simp only [hse, Bool.false_eq_true, if_false, List.cons_append,
      List.singleton_append, jget, dictGet, if_pos, jget2]
    rw [dictGet_foldl_dictSet Subscription.schema c.subscribers en hnd, hget]
    rfl
  · intro en pub hnd hget
    have hpe := dictGet_some_isEmpty hget
    have hps : ("publish" : String) ≠ "subscribe" := by decide
    rw [Channel.schema_eq]
    by_cases hse : c.subscribers.isEmpty
    · simp only [hse, if_true, hpe, Bool.false_eq_true, if_false,
        List.nil_append, jget, dictGet, if_pos, jget2]
      rw [dictGet_foldl_dictSet Publish.schema c.publishers en hnd, hget]
      rfl
    · simp only [hse, hpe, Bool.false_eq_true, if_false,
        List.singleton_append, jget, jget2, dictGet, hps]
      rw [if_pos True.intro]
      show dictGet (List.foldl
        (fun a kv => dictSet a kv.1 (Publish.schema kv.2)) []
        c.publishers) en = _
      rw [dictGet_foldl_dictSet Publish.schema c.publishers en hnd, hget]
      rfl

/-- Witness for C6 on a concrete application with one subscription and one
publish descriptor in one channel. -/
theorem C6_witness :
    jget (Application.schema aW6) "asyncapi" = some (Json.str "2.2.0") ∧
    jget2 (jget (Channel.schema cW6) "publish") "created" =
      some (Json.obj [("payload", Json.str "any-object-schema")]) ∧
    jget2 (jget (Channel.schema cW6) "subscribe") "shipped" =
      some (Json.obj [("payload", Json.str "tracking-schema")]) := by
  have h := C6_schema_export aW6 "orders" cW6 rfl
  exact ⟨h.1, h.2.2.2.2.2.1 "created" subEcho (by decide) rfl,
    h.2.2.2.2.2.2 "shipped" { model := mTrack } (by decide) rfl⟩

/-- Counterexample to C6 as stated: in the application appW the channel chat
holds one subscription and no publish descriptor; its channel schema is not a
two-key structure, because the subscribe key is absent entirely (while the
publish key is present), contradicting the claim that every channel maps to
a structure with both keys. -/
theorem C6_counterexample :
    jget2 (jget2 (jget (Application.schema appW) "channels") "chat")
        "publish" =
      some (Json.obj [("message",
        Json.obj [("payload", Json.str "any-object-schema")])]) ∧
    jget2 (jget2 (jget (Application.schema appW) "channels") "chat")
        "subscribe" = none :=
  ⟨rfl, rfl⟩

/-- Counterexample to C7 as stated: the claim says the top-level registration
API exposes registerPublish alongside registerSubscription; in the source
neither class Application nor class ChannelRouter defines a register_publish
method, so no publish descriptor can be registered through the Application. -/
theorem C7_counterexample :
    ¬ ("register_publish" ∈ Application.methodNames ∨
       "register_publish" ∈ ChannelRouter.methodNames) := by
  decide

/-- C7, amended: publish registration exists only at the Channel level. The
method register_publish is defined on class Channel alone, not on
ChannelRouter or Application, so a publish descriptor is registered by
calling the channel directly (no lazy channel creation through the router);
there it stores a Publish descriptor carrying the given shape under the event
name and leaves the subscription registry untouched. -/
theorem C7_register_publish_channel_only (c : Channel) (en : String)
    (m : Model) :
    "register_publish" ∈ Channel.methodNames ∧
    "register_publish" ∉ ChannelRouter.methodNames ∧
    "register_publish" ∉ Application.methodNames ∧
    (Channel.register_publish c en m).1 = Except.ok () ∧
    dictGet (Channel.register_publish c en m).2.1.publishers en =
      some { model := m } ∧
    (Channel.register_publish c en m).2.1.subscribers = c.subscribers := by
  refine ⟨by decide, by decide, by decide, rfl, ?_, rfl⟩
  simp [Channel.register_publish, dictGet_dictSet_self]
